import Mathlib

/-!
Shallow embedding of the capibot-voice-service transcription pipeline
(`app/auth.py`, `app/main.py`, `app/services/transcription.py`,
`app/services/webhook.py`, `app/config.py`) and proofs about it.

Python strings are modelled as Lean `String`; `None`-able strings as
`Option String`; machine floats carrying audio durations as `Rat`
(the claims under study only inspect truncation to an integer, never
float rounding); raised exceptions as `Except` error values.
-/

namespace Capibot

/-! ### Python primitive helpers -/

/-- Characters removed by Python `str.strip()` (ASCII whitespace). -/
def pyWhitespace : List Char := [' ', '\t', '\n', '\r', '\x0b', '\x0c']

/-- Model of Python `str.strip()`. -/
def pyStrip (s : String) : String :=
  ⟨((s.toList.dropWhile (pyWhitespace.contains ·)).reverse.dropWhile
      (pyWhitespace.contains ·)).reverse⟩

/-- Model of Python `str.lower()` (ASCII case folding, which covers every
string compared against the configured MIME allow-list). -/
def pyLower (s : String) : String :=
  ⟨s.toList.map Char.toLower⟩

/-- Does `needle` occur at the head of `hay`? -/
def listStarts : List Char → List Char → Bool
  | [], _ => true
  | _ :: _, [] => false
  | a :: as, b :: bs => a = b && listStarts as bs

/-- Model of Python `needle in hay` substring test. -/
def strContains (hay needle : String) : Bool :=
  (List.range (hay.toList.length + 1)).any
    (fun i => listStarts needle.toList (hay.toList.drop i))

/-- Model of Python `str.rfind(c)`: index of the last occurrence of `c`,
`-1` when absent. -/
def rfindChar (l : List Char) (c : Char) : Int :=
  match l with
  | [] => -1
  | x :: xs =>
    let r := rfindChar xs c
    if 0 ≤ r then r + 1 else if x = c then 0 else -1

/-- Model of Python `os.path.splitext(p)[1]` (posix rules: the extension
starts at the last dot `dotIdx` of the last path component — the one after
the last separator `sepIdx` — except that a basename consisting only of
leading dots up to that dot has no extension). CPython's locals
(`sepIndex`, `dotIndex`, `filenameIndex` scan) are inlined. -/
def pyExt (p : String) : String :=
  if rfindChar p.toList '/' < rfindChar p.toList '.' then
    if ((p.toList.drop (rfindChar p.toList '/' + 1).toNat).take
        ((rfindChar p.toList '.').toNat -
          (rfindChar p.toList '/' + 1).toNat)).all (· = '.') then ""
    else ⟨p.toList.drop (rfindChar p.toList '.').toNat⟩
  else ""

/-- Python truthiness of an `Optional[str]`: `None` and `""` are falsy. -/
def pyTruthyOpt (s : Option String) : Bool :=
  match s with
  | none => false
  | some s => s ≠ ""

/-- Python `a or b` on `Optional[str]` values: keeps `a` when truthy. -/
def pyOrS (a b : Option String) : Option String :=
  if pyTruthyOpt a then a else b

/-- The single-quote character, used when rebuilding Python f-string
error details. -/
def sq : Char := Char.ofNat 39

/-! ### Configuration (`app/config.py`) -/

/-- Value of `Settings.ALLOWED_AUDIO_TYPES` from `app/config.py`. -/
def ALLOWED_AUDIO_TYPES : List String :=
  ["audio/mpeg", "audio/wav", "audio/mp4", "audio/m4a", "audio/x-m4a", "audio/ogg"]

/-- Value of `Settings.MAX_FILE_SIZE` from `app/config.py` (25 MB). -/
def MAX_FILE_SIZE : Nat := 25 * 1024 * 1024

/-- Default of `Settings.WEBHOOK_RETRIES` from `app/config.py`. -/
def WEBHOOK_RETRIES : Nat := 3

/-! ### Authenticator (`app/auth.py`) -/

/-- A record of the `api_keys` Mongo collection (`APIKey` in
`app/models.py`); `id` models the string form of `_id`. -/
structure KeyDoc where
  id : String
  key : String
  name : String
  active : Bool
  deriving Repr, DecidableEq

/-- Observable outcome of `validate_api_key`: the returned key document, a
raised `HTTPException`, or an exception propagating out of the
`update_one` bookkeeping call (which `app/auth.py` does not catch). -/
inductive AuthResult where
  | ok (doc : KeyDoc)
  | httpError (status : Nat) (detail : String)
  | uncaughtStoreError
  deriving Repr, DecidableEq

/-- Model of the `api_keys_collection.find_one` lookup on key and active
flag: first store
document whose `key` matches exactly and whose `active` flag is true. -/
def find_one (store : List KeyDoc) (k : String) : Option KeyDoc :=
  store.find? (fun d => d.key = k && d.active)

/-- Model of `validate_api_key` from `app/auth.py` (lines 26-60).
`updateSucceeds` models whether the uncaught
`api_keys_collection.update_one` bookkeeping write succeeds or raises. -/
def validate_api_key (store : List KeyDoc) (updateSucceeds : Bool)
    (api_key_header api_key_auth api_key_body : Option String) : AuthResult :=
  let api_key := pyOrS (pyOrS api_key_header api_key_auth) api_key_body
  if pyTruthyOpt api_key = false then
    .httpError 401
      "API key required. Provide it in X-API-Key header, Authorization header, or request body."
  else
    match find_one store (api_key.getD "") with
    | none => .httpError 401 "Invalid or inactive API key"
    | some doc => if updateSucceeds then .ok doc else .uncaughtStoreError

/-- The credential material present on one inbound HTTP request:
`X-API-Key` header, bearer token of the `Authorization` header, the
`api_key` field of the JSON body (`TranscriptionRequest.api_key` in
`app/models.py`), and the `api_key_body` query parameter. -/
structure RequestCredentials where
  xApiKeyHeader : Option String
  bearerToken : Option String
  bodyApiKey : Option String
  queryApiKeyBody : Option String
  deriving Repr, DecidableEq

/-- How FastAPI wires a request into `validate_api_key`
(`Depends(validate_api_key)` in `app/main.py` line 119):
`api_key_header` comes from the `X-API-Key` header dependency,
`api_key_auth` from the `HTTPBearer` dependency, and — because
`api_key_body: Optional[str] = None` is a plain scalar parameter of a
dependency function — `api_key_body` is bound to the **query parameter**
named `api_key_body`. The JSON body field `api_key` is parsed into
`TranscriptionRequest` but never passed to `validate_api_key`. -/
def authenticate (store : List KeyDoc) (updateSucceeds : Bool)
    (req : RequestCredentials) : AuthResult :=
  validate_api_key store updateSucceeds
    req.xApiKeyHeader req.bearerToken req.queryApiKeyBody

/-! ### Payload Validator (`app/main.py` lines 22-72) -/

/-- Table `EXTENSION_TO_MIME` from `app/main.py`. -/
def EXTENSION_TO_MIME : List (String × String) :=
  [(".mp3", "audio/mpeg"), (".wav", "audio/wav"), (".m4a", "audio/m4a"),
   (".mp4", "audio/mp4"), (".ogg", "audio/ogg"), (".flac", "audio/flac")]

/-- Model of `normalize_content_type` from `app/main.py`. -/
def normalize_content_type (content_type : Option String) : Option String :=
  match content_type with
  | none => none
  | some s => if s = "" then none else some (pyLower (pyStrip s))

/-- Model of `get_mime_from_extension` from `app/main.py`. -/
def get_mime_from_extension (filename : String) : Option String :=
  if filename = "" then none
  else EXTENSION_TO_MIME.lookup (pyLower (pyExt filename))

/-- The `if filename:` extension-fallback block of `validate_audio_type`
(`app/main.py` lines 63-69). -/
def extFallback (filename : Option String) : Bool :=
  match filename with
  | some fn =>
    if fn ≠ "" then
      match get_mime_from_extension fn with
      | some m => m ≠ "" && ALLOWED_AUDIO_TYPES.contains m
      | none => false
    else false
  | none => false

/-- Model of `validate_audio_type` from `app/main.py`: content-type check first,
extension fallback second. -/
def validate_audio_type (content_type filename : Option String) : Bool :=
  let normalized := normalize_content_type content_type
  if pyTruthyOpt normalized && ALLOWED_AUDIO_TYPES.contains (normalized.getD "") then
    true
  else
    extFallback filename

/-- Transcription of the spec's §4.2 payload-validator algorithm, written
from the spec sentences (not from the code), for the refinement claim:
normalize (trim + lowercase); accept a non-empty allow-listed normalized
type; else map the filename extension (lowercased, leading dot) through
the fixed table and accept allow-listed images; else reject. -/
def validate_audio_type_spec (content_type filename : Option String) : Bool :=
  let normalized := pyLower (pyStrip (content_type.getD ""))
  if normalized ≠ "" && ALLOWED_AUDIO_TYPES.contains normalized then true
  else
    match EXTENSION_TO_MIME.lookup (pyLower (pyExt (filename.getD ""))) with
    | some m => ALLOWED_AUDIO_TYPES.contains m
    | none => false

/-! ### Delivery Notifier (`app/services/webhook.py`) -/

/-- Outcome of one webhook POST attempt: `some s` is an HTTP response with
status `s`; `none` is a timeout, connection error, or any other exception
(all three `except` arms of `send_transcription_result` fall through to
the same retry logic). -/
def attemptSuccess (o : Option Nat) : Bool :=
  match o with
  | some s => s = 200 || s = 201 || s = 202
  | none => false

/-- Observable result of `WebhookService.send_transcription_result`: the
returned boolean, the total seconds spent in `asyncio.sleep` backoff, and
the number of POST attempts issued. -/
structure SendOutcome where
  success : Bool
  totalSleep : Nat
  attempts : Nat
  deriving Repr, DecidableEq

/-- The `for attempt in range(self.retries)` loop of
`send_transcription_result` (`app/services/webhook.py` lines 54-86),
starting at attempt index `attempt`. -/
def sendLoop (outcomes : Nat → Option Nat) (retries attempt : Nat) : SendOutcome :=
  if attempt < retries then
    if attemptSuccess (outcomes attempt) then ⟨true, 0, 1⟩
    else
      let rest := sendLoop outcomes retries (attempt + 1)
      let sleep := if attempt < retries - 1 then 2 ^ attempt else 0
      ⟨rest.success, sleep + rest.totalSleep, 1 + rest.attempts⟩
  else ⟨false, 0, 0⟩
  termination_by retries - attempt

/-- Model of `WebhookService.send_transcription_result`, parameterised by the
outcome of each network attempt. -/
def send_transcription_result (outcomes : Nat → Option Nat) (retries : Nat) :
    SendOutcome :=
  sendLoop outcomes retries 0

/-! ### Transcription Dispatcher (`app/services/transcription.py`) -/

/-- The dict returned by `whisper.Model.transcribe`: `text`, optional
`language` (read via `result.get("language", "pt")`), and the `end` field
of each segment (read via `segments[-1].get("end", 0.0)`). -/
structure WhisperResult where
  text : String
  language : Option String
  segEnds : List (Option Rat)
  deriving Repr, DecidableEq

/-- Behaviour of the one engine call a request makes:
a result dict, a raised `FileNotFoundError`, or any other exception. -/
inductive EngineOutcome where
  | ok (res : WhisperResult)
  | fileNotFoundError (msg : String)
  | otherError (msg : String)
  deriving Repr, DecidableEq

/-- A raised `fastapi.HTTPException` (status code plus detail string). -/
structure HttpError where
  status : Nat
  detail : String
  deriving Repr, DecidableEq

instance {ε α : Type} [DecidableEq ε] [DecidableEq α] :
    DecidableEq (Except ε α) := fun a b =>
  match a, b with
  | .error e1, .error e2 =>
    if h : e1 = e2 then .isTrue (by rw [h])
    else .isFalse (fun he => h (Except.error.inj he))
  | .error _, .ok _ => .isFalse (fun he => Except.noConfusion he)
  | .ok _, .error _ => .isFalse (fun he => Except.noConfusion he)
  | .ok a1, .ok a2 =>
    if h : a1 = a2 then .isTrue (by rw [h])
    else .isFalse (fun he => h (Except.ok.inj he))

/-- Python `str()` of an `HTTPException` (starlette renders
`f"{status_code}: {detail}"`). -/
def strOfHttpError (e : HttpError) : String :=
  toString e.status ++ ": " ++ e.detail

/-- The actionable detail used for a missing-ffmpeg condition
(`app/services/transcription.py` lines 69 and 81). -/
def ffmpegDetail : String :=
  "ffmpeg is required for audio transcription but is not installed. Please install ffmpeg: brew install ffmpeg (macOS) or apt-get install ffmpeg (Linux)"

/-- Duration extraction from `result.get("segments", [])`
(`app/services/transcription.py` lines 54-60). -/
def durationFromSegments (segEnds : List (Option Rat)) : Rat :=
  match segEnds.getLast? with
  | some o => o.getD 0
  | none => 0

/-- Model of `TranscriptionService.transcribe_audio_file`
(`app/services/transcription.py` lines 31-85), as a function of the
engine call's behaviour. The `self.model` null-check is omitted: the
module-level singleton either loads the model or fails at import. -/
def transcribe_audio_file (eng : EngineOutcome) :
    Except HttpError (String × String × Rat) :=
  match eng with
  | .ok r => .ok (pyStrip r.text, r.language.getD "pt", durationFromSegments r.segEnds)
  | .fileNotFoundError msg =>
    if strContains (pyLower msg) "ffmpeg" then
      .error ⟨500, ffmpegDetail⟩
    else
      .error ⟨400, "Failed to transcribe audio: " ++ msg⟩
  | .otherError msg =>
    let error_msg := if strContains (pyLower msg) "ffmpeg" then ffmpegDetail else msg
    .error ⟨400, "Failed to transcribe audio: " ++ error_msg⟩

/-! ### Base64 decoding (`base64.b64decode`, non-strict mode)

CPython `binascii.a2b_base64` with `strict_mode=False`: characters outside
the base64 alphabet are skipped; a padding character ends decoding once at
least two data characters of the current quad have been seen and enough
pads accumulated; at end of input a quad position of 1 is a data-character
count error and positions 2-3 are `Incorrect padding`. -/

/-- Value of a character in the standard base64 alphabet. -/
def b64CharVal (c : Char) : Option Nat :=
  if 'A' ≤ c ∧ c ≤ 'Z' then some (c.toNat - 65)
  else if 'a' ≤ c ∧ c ≤ 'z' then some (c.toNat - 71)
  else if '0' ≤ c ∧ c ≤ '9' then some (c.toNat + 4)
  else if c = '+' then some 62
  else if c = '/' then some 63
  else none

/-- The `binascii.Error` message for a data-character count that is 1 more
than a multiple of 4. -/
def b64LenErrMsg (n : Nat) : String :=
  "Invalid base64-encoded string: number of data characters (" ++ toString n ++
    ") cannot be 1 more than a multiple of 4"

/-- Decoding loop of `binascii.a2b_base64` (non-strict). State: produced
bytes (reversed), quad position, pending bits, consecutive pad count, and
the number of data characters consumed. -/
def b64Loop : List Char → List Nat → Nat → Nat → Nat → Nat →
    Except String (List Nat)
  | [], out, quadPos, _, _, nData =>
    if quadPos = 0 then .ok out.reverse
    else if quadPos = 1 then .error (b64LenErrMsg nData)
    else .error "Incorrect padding"
  | c :: rest, out, quadPos, leftchar, pads, nData =>
    if c = '=' then
      if 2 ≤ quadPos ∧ 4 ≤ quadPos + (pads + 1) then .ok out.reverse
      else b64Loop rest out quadPos leftchar (pads + 1) nData
    else
      match b64CharVal c with
      | none => b64Loop rest out quadPos leftchar pads nData
      | some v =>
        match quadPos with
        | 0 => b64Loop rest out 1 v 0 (nData + 1)
        | 1 => b64Loop rest ((leftchar * 4 + v / 16) :: out) 2 (v % 16) 0 (nData + 1)
        | 2 => b64Loop rest ((leftchar * 16 + v / 4) :: out) 3 (v % 4) 0 (nData + 1)
        | _ => b64Loop rest ((leftchar * 64 + v) :: out) 0 0 0 (nData + 1)

/-- Model of `base64.b64decode(s)` (validate=False). -/
def pyB64decode (s : String) : Except String (List Nat) :=
  b64Loop s.toList [] 0 0 0 0

/-- Model of `TranscriptionService.transcribe_base64_audio`
(`app/services/transcription.py` lines 87-115). The blanket
`except Exception` also catches the `HTTPException` raised by the inner
`transcribe_audio_file` call and re-wraps it with status 400. -/
def transcribe_base64_audio (audio_base64 : String) (eng : EngineOutcome) :
    Except HttpError (String × String × Rat) :=
  match pyB64decode audio_base64 with
  | .error m => .error ⟨400, "Failed to process base64 audio: " ++ m⟩
  | .ok _ =>
    match transcribe_audio_file eng with
    | .ok r => .ok r
    | .error e =>
      .error ⟨400, "Failed to process base64 audio: " ++ strOfHttpError e⟩

/-- Model of `TranscriptionService.validate_audio_file`
(`app/services/transcription.py` lines 117-131): existence, size limit,
then extension membership. -/
def validate_audio_file (fileExists : Bool) (file_size : Nat)
    (file_path : String) : Bool :=
  if fileExists = false then false
  else if MAX_FILE_SIZE < file_size then false
  else
    ([".mp3", ".wav", ".m4a", ".mp4", ".ogg", ".flac"] : List String).contains
      (pyLower (pyExt file_path))

/-! ### Request Orchestrator (`app/main.py` lines 109-273) -/

/-- An `UploadFile` part of a multipart request: `filename`,
`content_type` and `size` as reported by the client, and the byte count
of the actually uploaded content (`len(await audio.read())`). -/
structure FileUpload where
  filename : Option String
  content_type : Option String
  size : Option Nat
  contentSize : Nat
  deriving Repr, DecidableEq

/-- Model of `TranscriptionRequest` from `app/models.py`. -/
structure TranscriptionRequest where
  audio_base64 : Option String
  api_key : Option String
  deriving Repr, DecidableEq

/-- Behaviour of the `webhook_service.send_transcription_result` call made
by the orchestrator: a returned boolean or a raised exception (which
`app/main.py` lines 238-248 catch, leaving `webhook_success = False`). -/
inductive WebhookRun where
  | returns (b : Bool)
  | raises
  deriving Repr, DecidableEq

/-- The `webhook_success` value after the guarded call. -/
def webhookDelivered : WebhookRun → Bool
  | .returns b => b
  | .raises => false

/-- The JSON object returned on success (`app/main.py` lines 251-259);
the structure fields are exactly the response keys. -/
structure SuccessResponse where
  message : String
  status : String
  text : String
  language : String
  duration : Rat
  webhook_delivered : Bool
  transcription_id : String
  deriving Repr, DecidableEq

/-- Python `int(q)` on a duration: truncation toward zero. -/
def pyTruncRat (q : Rat) : Int :=
  Int.tdiv q.num q.den

/-- The `f"trans_{...}_{int(duration) if duration else 0}"` identifier. -/
def transcriptionId (keyId : String) (duration : Rat) : String :=
  "trans_" ++ keyId ++ "_" ++ toString (if duration ≠ 0 then pyTruncRat duration else 0)

/-- Response assembly at `app/main.py` lines 251-259. -/
def buildSuccess (key : KeyDoc) (text lang : String) (duration : Rat)
    (wr : WebhookRun) : SuccessResponse :=
  { message := "Transcription completed"
    status := "success"
    text := text
    language := lang
    duration := duration
    webhook_delivered := webhookDelivered wr
    transcription_id := transcriptionId key.id duration }

/-- Python repr of the allow-list, as interpolated into the
unsupported-type error detail. -/
def allowedTypesRepr : String :=
  let q := sq.toString
  "[" ++ q ++ "audio/mpeg" ++ q ++ ", " ++ q ++ "audio/wav" ++ q ++ ", " ++
    q ++ "audio/mp4" ++ q ++ ", " ++ q ++ "audio/m4a" ++ q ++ ", " ++
    q ++ "audio/x-m4a" ++ q ++ ", " ++ q ++ "audio/ogg" ++ q ++ "]"

/-- Python `str()` of an `Optional[str]` interpolated into an f-string. -/
def pyShowOptStr (o : Option String) : String :=
  match o with
  | none => "None"
  | some s => s

/-- The rejection detail built at `app/main.py` lines 153-158. -/
def unsupportedTypeDetail (content_type : Option String) (fn : String) : String :=
  let q := sq.toString
  let base := "Unsupported audio type. Received: content_type=" ++ q ++
    pyShowOptStr content_type ++ q ++ ", filename=" ++ q ++ fn ++ q
  let base :=
    match get_mime_from_extension fn with
    | some m =>
      if m ≠ "" then base ++ ", detected_mime_from_extension=" ++ q ++ m ++ q
      else base
    | none => base
  base ++ ". Allowed types: " ++ allowedTypesRepr

/-- The `if audio.size and audio.size > settings.MAX_FILE_SIZE` guard at
`app/main.py` line 174 (Python truthiness: `None` and `0` skip it). -/
def reportedTooLarge (size : Option Nat) : Bool :=
  match size with
  | some s => decide (s ≠ 0) && decide (MAX_FILE_SIZE < s)
  | none => false

/-- Path of the `NamedTemporaryFile` the upload is saved to: an unsuffixed
temp basename (no dots) plus `os.path.splitext(audio.filename)[1]`. -/
def tempPath (fn : String) : String :=
  "/tmp/tmpupload0" ++ pyExt fn

/-- The terminal 400 of the `else` arm at `app/main.py` lines 225-234. -/
def noPayloadError : Except HttpError SuccessResponse :=
  .error ⟨400, "Either audio file or audio_base64 must be provided"⟩

/-- The `elif request_data and request_data.audio_base64` / `else` arms of
the orchestrator (`app/main.py` lines 216-234), reached whenever the file
branch guard `audio and audio.filename` is falsy. -/
def nonFileBranch (authenticated_key : KeyDoc)
    (request_data : Option TranscriptionRequest) (eng : EngineOutcome)
    (wr : WebhookRun) : Except HttpError SuccessResponse :=
  match request_data with
  | some rd =>
    match rd.audio_base64 with
    | some b64 =>
      if b64 ≠ "" then
        match transcribe_base64_audio b64 eng with
        | .error e => .error e
        | .ok (t, l, d) => .ok (buildSuccess authenticated_key t l d wr)
      else noPayloadError
    | none => noPayloadError
  | none => noPayloadError

/-- The `/transcribe` endpoint body after authentication
(`app/main.py` lines 136-259), parameterised by the engine call's and the
webhook call's behaviour. Webhook error notifications return booleans that
the orchestrator discards, so they do not appear. -/
def transcribe_audio (authenticated_key : KeyDoc) (audio : Option FileUpload)
    (request_data : Option TranscriptionRequest) (eng : EngineOutcome)
    (wr : WebhookRun) : Except HttpError SuccessResponse :=
  match audio with
  | some a =>
    if pyTruthyOpt a.filename then
      if validate_audio_type a.content_type a.filename = false then
        .error ⟨400, unsupportedTypeDetail a.content_type (a.filename.getD "")⟩
      else if reportedTooLarge a.size then
        .error ⟨400, "File too large. Maximum size: " ++ toString MAX_FILE_SIZE ++ " bytes"⟩
      else if validate_audio_file true a.contentSize (tempPath (a.filename.getD "")) = false then
        .error ⟨400, "Invalid audio file format or size"⟩
      else
        match transcribe_audio_file eng with
        | .error e => .error e
        | .ok (t, l, d) => .ok (buildSuccess authenticated_key t l d wr)
    else nonFileBranch authenticated_key request_data eng wr
  | none => nonFileBranch authenticated_key request_data eng wr

/-! ### Helper lemmas -/

/-- A store with no active document for `k` makes `find_one` miss. -/
lemma find_one_eq_none {store : List KeyDoc} {k : String}
    (h : ∀ d ∈ store, d.key = k → d.active = false) :
    find_one store k = none := by
  unfold find_one
  rw [List.find?_eq_none]
  intro d hd
  simp only [Bool.and_eq_true, decide_eq_true_eq, not_and]
  intro hk
  simp [h d hd hk]

lemma pyTruthyOpt_some {k : String} (h : k ≠ "") :
    pyTruthyOpt (some k) = true := by
  simp [pyTruthyOpt, h]

lemma pyOrS_single {k : String} (h : k ≠ "") :
    pyOrS (pyOrS (some k) none) none = some k := by
  simp [pyOrS, pyTruthyOpt_some h]

/-! ### Claim theorems: Authenticator -/

/-- C1 (code evaluated at the failing input): the JSON body field
`api_key` is never wired into `validate_api_key` — FastAPI binds the
dependency parameter `api_key_body` to a query parameter — so a request
whose only credential is a valid active key in the body `api_key` field
is rejected 401, even though `validate_api_key` itself would accept that
key if it were passed as its third argument. -/
theorem auth_body_field_never_reaches_validator :
    authenticate [⟨"i1", "k1", "alice", true⟩] true
      ⟨none, none, some "k1", none⟩ =
      .httpError 401
        "API key required. Provide it in X-API-Key header, Authorization header, or request body." ∧
    validate_api_key [⟨"i1", "k1", "alice", true⟩] true none none (some "k1") =
      .ok ⟨"i1", "k1", "alice", true⟩ := by
  constructor <;> rfl

/-- C2 (counterexample): the `update_one` bookkeeping write at
`app/auth.py` lines 55-58 is not guarded by any `try`, so with a valid
active key a failing store write propagates out of `validate_api_key`
instead of authentication succeeding. -/
theorem validate_api_key_update_failure_cex :
    validate_api_key [⟨"i1", "k1", "alice", true⟩] false (some "k1") none none =
      .uncaughtStoreError := by
  rfl

/-- C2 (amended): for a request carrying a valid active credential,
authentication succeeds exactly when the `lastUsedAt` bookkeeping write
succeeds; a failing write propagates as an uncaught store error rather
than being logged and ignored. -/
theorem validate_api_key_update_failure_amended
    (store : List KeyDoc) (h a b : Option String) (doc : KeyDoc)
    (htruthy : pyTruthyOpt (pyOrS (pyOrS h a) b) = true)
    (hfind : find_one store ((pyOrS (pyOrS h a) b).getD "") = some doc) :
    validate_api_key store false h a b = .uncaughtStoreError ∧
    validate_api_key store true h a b = .ok doc := by
  constructor <;> simp [validate_api_key, htruthy, hfind]

/-- C2 witness: concrete instantiation of the amended theorem. -/
theorem validate_api_key_update_failure_amended_witness :
    validate_api_key [⟨"i1", "k1", "alice", true⟩] false (some "k1") none none =
      .uncaughtStoreError ∧
    validate_api_key [⟨"i1", "k1", "alice", true⟩] true (some "k1") none none =
      .ok ⟨"i1", "k1", "alice", true⟩ :=
  validate_api_key_update_failure_amended
    [⟨"i1", "k1", "alice", true⟩] (some "k1") none none
    ⟨"i1", "k1", "alice", true⟩ (by decide) (by decide)

/-- C7: a request presenting a key that exists but is deactivated and a
request presenting a key absent from the store produce identical
observable outcomes: the same 401 with the same detail, regardless of the
stores and of the bookkeeping write behaviour. -/
theorem inactive_key_indistinguishable_from_unknown
    (store1 store2 : List KeyDoc) (upd1 upd2 : Bool) (k1 k2 : String)
    (hk1 : k1 ≠ "") (hk2 : k2 ≠ "")
    (hInactive : ∀ d ∈ store1, d.key = k1 → d.active = false)
    (hAbsent : ∀ d ∈ store2, d.key ≠ k2) :
    validate_api_key store1 upd1 (some k1) none none =
      validate_api_key store2 upd2 (some k2) none none ∧
    validate_api_key store1 upd1 (some k1) none none =
      .httpError 401 "Invalid or inactive API key" := by
  have e1 : find_one store1 k1 = none := find_one_eq_none hInactive
  have e2 : find_one store2 k2 = none :=
    find_one_eq_none (fun d hd hk => absurd hk (hAbsent d hd))
  have g1 : validate_api_key store1 upd1 (some k1) none none =
      .httpError 401 "Invalid or inactive API key" := by
    simp [validate_api_key, pyOrS_single hk1, pyTruthyOpt_some hk1, e1]
  have g2 : validate_api_key store2 upd2 (some k2) none none =
      .httpError 401 "Invalid or inactive API key" := by
    simp [validate_api_key, pyOrS_single hk2, pyTruthyOpt_some hk2, e2]
  exact ⟨g1.trans g2.symm, g1⟩

/-- C7 witness: a deactivated key against its store versus an unknown key
against an empty store. -/
theorem inactive_key_indistinguishable_witness :
    validate_api_key [⟨"i1", "k1", "alice", false⟩] true (some "k1") none none =
      validate_api_key [] true (some "k2") none none ∧
    validate_api_key [⟨"i1", "k1", "alice", false⟩] true (some "k1") none none =
      .httpError 401 "Invalid or inactive API key" :=
  inactive_key_indistinguishable_from_unknown
    [⟨"i1", "k1", "alice", false⟩] [] true true "k1" "k2"
    (by decide) (by decide) (by decide) (by decide)

/-! ### Claim theorems: Payload Validator -/

/-- Every MIME the extension table can produce is non-empty. -/
lemma table_lookup_ne_empty (e m : String)
    (h : EXTENSION_TO_MIME.lookup e = some m) : m ≠ "" := by
  simp only [EXTENSION_TO_MIME, List.lookup] at h
  repeat' split at h
  all_goals first
    | exact Option.noConfusion h
    | (obtain rfl := (Option.some.inj h).symm; decide)

/-- The extension fallback agrees with the spec-worded extension step. -/
lemma extFallback_eq_spec (fn : Option String) :
    extFallback fn =
      match EXTENSION_TO_MIME.lookup (pyLower (pyExt (fn.getD ""))) with
      | some m => ALLOWED_AUDIO_TYPES.contains m
      | none => false := by
  have hempty : EXTENSION_TO_MIME.lookup (pyLower (pyExt "")) = none := by decide
  cases fn with
  | none => simp [extFallback, hempty]
  | some f =>
    by_cases hf : f = ""
    · subst hf; simp [extFallback, hempty]
    · simp only [extFallback, get_mime_from_extension, hf, if_neg, ite_not]
      cases hL : EXTENSION_TO_MIME.lookup (pyLower (pyExt f)) with
      | none => simp [hf, hL]
      | some m => simp [hf, hL, table_lookup_ne_empty _ _ hL]

/-- Function `validate_audio_type` and the spec-worded algorithm coincide. -/
lemma validate_audio_type_eq_spec (ct fn : Option String) :
    validate_audio_type ct fn = validate_audio_type_spec ct fn := by
  have hfb := extFallback_eq_spec fn
  have h0 : pyLower (pyStrip "") = "" := by decide
  unfold validate_audio_type validate_audio_type_spec
  cases ct with
  | none =>
    simp only [normalize_content_type, pyTruthyOpt, Option.getD_none, h0]
    simp [hfb]
  | some s =>
    by_cases hs : s = ""
    · subst hs
      simp only [normalize_content_type, pyTruthyOpt, Option.getD_some, h0]
      simp [hfb, h0]
    · simp only [normalize_content_type, hs, if_neg, pyTruthyOpt, Option.getD_some]
      by_cases ht : pyLower (pyStrip s) = ""
      · simp [hs, ht, hfb]
      · by_cases hc : pyLower (pyStrip s) ∈ ALLOWED_AUDIO_TYPES
        · simp [hs, ht, hc]
        · simp [hs, ht, hc, hfb]

/-- C3: `validate_audio_type` is the three-step first-match-wins algorithm
of the spec: (i) it coincides pointwise with the algorithm transcribed
from the spec text; (ii) any content-type whose trimmed lowercase form is
allow-listed is accepted whatever the filename (covering arbitrary case
and surrounding whitespace); (iii) when the normalized content-type is not
allow-listed and the filename extension does not map to an allow-listed
MIME, it rejects. -/
theorem validate_audio_type_spec_conformance :
    (∀ ct fn, validate_audio_type ct fn = validate_audio_type_spec ct fn) ∧
    (∀ s fn, pyLower (pyStrip s) ∈ ALLOWED_AUDIO_TYPES →
      validate_audio_type (some s) fn = true) ∧
    (∀ ct fn,
      pyLower (pyStrip (ct.getD "")) ∉ ALLOWED_AUDIO_TYPES →
      (∀ m, EXTENSION_TO_MIME.lookup (pyLower (pyExt (fn.getD ""))) = some m →
        m ∉ ALLOWED_AUDIO_TYPES) →
      validate_audio_type ct fn = false) := by
  refine ⟨validate_audio_type_eq_spec, ?_, ?_⟩
  · intro s fn hc
    have hne : pyLower (pyStrip s) ≠ "" := by
      intro h; rw [h] at hc; exact absurd hc (by decide)
    have hsne : s ≠ "" := by
      intro h; subst h; exact hne (by decide)
    simp [validate_audio_type, normalize_content_type, hsne, pyTruthyOpt, hne, hc]
  · intro ct fn hct hext
    rw [validate_audio_type_eq_spec, validate_audio_type_spec]
    cases hL : EXTENSION_TO_MIME.lookup (pyLower (pyExt (fn.getD ""))) with
    | none => simp [hct, hL]
    | some m => simp [hct, hL, hext m hL]

/-- C3 witness: an allow-listed content-type in scrambled case with
whitespace is accepted with an unrelated filename; an unrecognized
content-type with a recognized extension is accepted; both unrecognized
is rejected. -/
theorem validate_audio_type_spec_conformance_witness :
    validate_audio_type (some "  AUDIO/Mpeg \t") (some "x.bin") = true ∧
    validate_audio_type (some "application/json") (some "x.bin") = false :=
  ⟨validate_audio_type_spec_conformance.2.1 "  AUDIO/Mpeg \t" (some "x.bin")
      (by decide),
   validate_audio_type_spec_conformance.2.2 (some "application/json")
      (some "x.bin") (by decide) (by decide)⟩

/-! ### Claim theorems: Delivery Notifier -/

lemma sendLoop_stop (o : Nat → Option Nat) (r a : Nat) (h : ¬ a < r) :
    sendLoop o r a = ⟨false, 0, 0⟩ := by
  rw [sendLoop]; simp [h]

lemma sendLoop_hit (o : Nat → Option Nat) (r a : Nat) (h : a < r)
    (hs : attemptSuccess (o a) = true) :
    sendLoop o r a = ⟨true, 0, 1⟩ := by
  rw [sendLoop]; simp [h, hs]

lemma sendLoop_miss (o : Nat → Option Nat) (r a : Nat) (h : a < r)
    (hs : attemptSuccess (o a) = false) :
    sendLoop o r a =
      ⟨(sendLoop o r (a + 1)).success,
       (if a < r - 1 then 2 ^ a else 0) + (sendLoop o r (a + 1)).totalSleep,
       1 + (sendLoop o r (a + 1)).attempts⟩ := by
  conv_lhs => rw [sendLoop]
  simp [h, hs]

lemma sendLoop_attempts_le (o : Nat → Option Nat) :
    ∀ fuel r a, r - a ≤ fuel → (sendLoop o r a).attempts ≤ r - a := by
  intro fuel
  induction fuel with
  | zero =>
    intro r a h
    have : ¬ a < r := by omega
    simp [sendLoop_stop o r a this]
  | succ n ih =>
    intro r a h
    by_cases hlt : a < r
    · by_cases hs : attemptSuccess (o a) = true
      · rw [sendLoop_hit o r a hlt hs]
        show (1 : Nat) ≤ r - a
        omega
      · rw [sendLoop_miss o r a hlt (by simpa using hs)]
        have := ih r (a + 1) (by omega)
        simp only
        omega
    · simp [sendLoop_stop o r a hlt]

lemma sendLoop_success_iff (o : Nat → Option Nat) :
    ∀ fuel r a, r - a ≤ fuel →
      ((sendLoop o r a).success = true ↔
        ∃ i, a ≤ i ∧ i < r ∧ attemptSuccess (o i) = true) := by
  intro fuel
  induction fuel with
  | zero =>
    intro r a h
    have hnlt : ¬ a < r := by omega
    rw [sendLoop_stop o r a hnlt]
    simp only [Bool.false_eq_true, false_iff]
    rintro ⟨i, hai, hir, _⟩
    omega
  | succ n ih =>
    intro r a h
    by_cases hlt : a < r
    · by_cases hs : attemptSuccess (o a) = true
      · rw [sendLoop_hit o r a hlt hs]
        simp only [true_iff]
        exact ⟨a, le_refl a, hlt, hs⟩
      · rw [sendLoop_miss o r a hlt (by simpa using hs)]
        simp only
        rw [ih r (a + 1) (by omega)]
        constructor
        · rintro ⟨i, hai, hir, hsi⟩
          exact ⟨i, by omega, hir, hsi⟩
        · rintro ⟨i, hai, hir, hsi⟩
          refine ⟨i, ?_, hir, hsi⟩
          rcases Nat.eq_or_lt_of_le hai with rfl | hlt2
          · rw [hsi] at hs; exact absurd rfl hs
          · omega
    · rw [sendLoop_stop o r a hlt]
      simp only [Bool.false_eq_true, false_iff]
      rintro ⟨i, hai, hir, _⟩
      omega

/-- C4: retry policy of `send_transcription_result`: an attempt succeeds
iff the response status is 200, 201 or 202, and a timeout / connection
failure / other exception (`none`) is a failed attempt; at most `retries`
attempts are issued; the returned boolean is true iff some attempt in
range succeeded; with `retries = 3` and every attempt failing it sleeps
1 + 2 = 3 seconds total, issues 3 attempts and returns false; a
first-attempt success returns true immediately with zero sleep. The
function is total (all exceptions are absorbed into failed attempts),
so no exception reaches the caller. -/
theorem send_transcription_result_retry_policy :
    (∀ s, attemptSuccess (some s) =
      (decide (s = 200) || decide (s = 201) || decide (s = 202))) ∧
    attemptSuccess none = false ∧
    (∀ o r, (send_transcription_result o r).attempts ≤ r) ∧
    (∀ o r, (send_transcription_result o r).success = true ↔
      ∃ i, i < r ∧ attemptSuccess (o i) = true) ∧
    (∀ o, (∀ i, i < 3 → attemptSuccess (o i) = false) →
      send_transcription_result o 3 = ⟨false, 3, 3⟩) ∧
    (∀ o r, 0 < r → attemptSuccess (o 0) = true →
      send_transcription_result o r = ⟨true, 0, 1⟩) := by
  refine ⟨fun s => rfl, rfl, ?_, ?_, ?_, ?_⟩
  · intro o r
    have := sendLoop_attempts_le o r r 0 (by omega)
    simpa [send_transcription_result] using this
  · intro o r
    rw [send_transcription_result, sendLoop_success_iff o r r 0 (by omega)]
    constructor
    · rintro ⟨i, _, hir, hsi⟩; exact ⟨i, hir, hsi⟩
    · rintro ⟨i, hir, hsi⟩; exact ⟨i, Nat.zero_le i, hir, hsi⟩
  · intro o hfail
    rw [send_transcription_result,
      sendLoop_miss o 3 0 (by omega) (hfail 0 (by omega)),
      sendLoop_miss o 3 1 (by omega) (hfail 1 (by omega)),
      sendLoop_miss o 3 2 (by omega) (hfail 2 (by omega)),
      sendLoop_stop o 3 3 (by omega)]
    simp
  · intro o r hr hs
    rw [send_transcription_result, sendLoop_hit o r 0 hr hs]

/-- C4 witness: all attempts answering 500 exhausts 3 attempts with 3
seconds of backoff and returns false; an immediate 202 returns true with
no sleep. -/
theorem send_transcription_result_retry_policy_witness :
    send_transcription_result (fun _ => some 500) 3 = ⟨false, 3, 3⟩ ∧
    send_transcription_result (fun _ => some 202) 3 = ⟨true, 0, 1⟩ :=
  ⟨send_transcription_result_retry_policy.2.2.2.2.1 (fun _ => some 500)
      (fun i _ => rfl),
   send_transcription_result_retry_policy.2.2.2.2.2 (fun _ => some 202) 3
      (by omega) rfl⟩

/-! ### Claim theorems: Transcription Dispatcher failure translation -/

/-- C5 (counterexample): on the base64 input path a missing-ffmpeg signal
from the engine does NOT surface as a 500 MissingDependency error — the
blanket `except Exception` of `transcribe_base64_audio` catches the inner
`HTTPException(500, ...)` and re-raises it with status 400, stringifying
the caught exception into the detail. -/
theorem base64_ffmpeg_missing_maps_to_400_cex :
    transcribe_base64_audio ""
      (.fileNotFoundError "No such file or directory: ffmpeg") =
      .error ⟨400, "Failed to process base64 audio: 500: " ++ ffmpegDetail⟩ ∧
    (400 : Nat) ≠ 500 := by
  exact ⟨rfl, by decide⟩

/-- C5 (amended): on the file-backed path, an engine `FileNotFoundError`
whose message mentions ffmpeg yields the distinct actionable 500; a
`FileNotFoundError` not mentioning ffmpeg and any other engine exception
yield a 400 `TranscriptionFailed` carrying the underlying message, except
that a non-`FileNotFoundError` message mentioning ffmpeg is replaced by
the actionable ffmpeg text (still status 400); on the base64 path every
inner failure — including the missing-dependency 500 — is re-wrapped as
400 `Failed to process base64 audio: ...`. -/
theorem transcription_failure_translation_amended :
    (∀ msg, strContains (pyLower msg) "ffmpeg" = true →
      transcribe_audio_file (.fileNotFoundError msg) = .error ⟨500, ffmpegDetail⟩) ∧
    (∀ msg, strContains (pyLower msg) "ffmpeg" = false →
      transcribe_audio_file (.fileNotFoundError msg) =
        .error ⟨400, "Failed to transcribe audio: " ++ msg⟩) ∧
    (∀ msg, strContains (pyLower msg) "ffmpeg" = false →
      transcribe_audio_file (.otherError msg) =
        .error ⟨400, "Failed to transcribe audio: " ++ msg⟩) ∧
    (∀ msg, strContains (pyLower msg) "ffmpeg" = true →
      transcribe_audio_file (.otherError msg) =
        .error ⟨400, "Failed to transcribe audio: " ++ ffmpegDetail⟩) ∧
    (∀ b64 bs e eng, pyB64decode b64 = .ok bs →
      transcribe_audio_file eng = .error e →
      transcribe_base64_audio b64 eng =
        .error ⟨400, "Failed to process base64 audio: " ++ strOfHttpError e⟩) := by
  refine ⟨?_, ?_, ?_, ?_, ?_⟩
  · intro msg h; simp [transcribe_audio_file, h]
  · intro msg h; simp [transcribe_audio_file, h]
  · intro msg h; simp [transcribe_audio_file, h]
  · intro msg h; simp [transcribe_audio_file, h]
  · intro b64 bs e eng hdec heng
    simp [transcribe_base64_audio, hdec, heng]

/-- C5 witness: concrete instances of the amended translation rules. -/
theorem transcription_failure_translation_amended_witness :
    transcribe_audio_file (.fileNotFoundError "No such file or directory: ffmpeg") =
      .error ⟨500, ffmpegDetail⟩ ∧
    transcribe_audio_file (.otherError "decoder blew up") =
      .error ⟨400, "Failed to transcribe audio: decoder blew up"⟩ ∧
    transcribe_base64_audio "aGk=" (.otherError "decoder blew up") =
      .error ⟨400,
        "Failed to process base64 audio: 400: Failed to transcribe audio: decoder blew up"⟩ :=
  ⟨transcription_failure_translation_amended.1
      "No such file or directory: ffmpeg" (by decide),
   transcription_failure_translation_amended.2.2.1 "decoder blew up" (by decide),
   transcription_failure_translation_amended.2.2.2.2 "aGk=" [104, 105]
      ⟨400, "Failed to transcribe audio: decoder blew up"⟩
      (.otherError "decoder blew up") rfl
      (transcription_failure_translation_amended.2.2.1 "decoder blew up" (by decide))⟩

/-! ### Claim theorems: base64 decoding -/

lemma string_append_inj {p a b : String} (h : p ++ a = p ++ b) : a = b := by
  apply String.ext
  have hd := congrArg String.data h
  simp only [String.data_append] at hd
  exact List.append_cancel_left hd

/-- Every error `b64Loop` can produce is `Incorrect padding` or the
data-character count message. -/
lemma b64Loop_error_shape :
    ∀ (l : List Char) (out : List Nat) (q lc pads nd : Nat) (m : String),
      b64Loop l out q lc pads nd = .error m →
      m = "Incorrect padding" ∨ ∃ n, m = b64LenErrMsg n := by
  intro l
  induction l with
  | nil =>
    intro out q lc pads nd m h
    simp only [b64Loop] at h
    split at h
    · exact absurd h (by simp)
    · split at h
      · right; exact ⟨nd, (Except.error.inj h).symm⟩
      · left; exact (Except.error.inj h).symm
  | cons c rest ih =>
    intro out q lc pads nd m h
    simp only [b64Loop] at h
    split at h
    · split at h
      · exact absurd h (by simp)
      · exact ih _ _ _ _ _ _ h
    · split at h
      · exact ih _ _ _ _ _ _ h
      · split at h <;> exact ih _ _ _ _ _ _ h

/-- Every error `transcribe_audio_file` raises carries status 400 or
500. -/
lemma transcribe_audio_file_error_status (eng : EngineOutcome) (e : HttpError)
    (h : transcribe_audio_file eng = .error e) :
    e.status = 400 ∨ e.status = 500 := by
  cases eng with
  | ok r => exact absurd h (by simp [transcribe_audio_file])
  | fileNotFoundError msg =>
    simp only [transcribe_audio_file] at h
    split at h
    · right; rw [← Except.error.inj h]
    · left; rw [← Except.error.inj h]
  | otherError msg =>
    simp only [transcribe_audio_file] at h
    left; rw [← Except.error.inj h]

/-- C6: a base64-path request whose `audio_base64` is malformed fails at
decoding: (i) the caller gets a 400 whose detail wraps the decoder's
encoding message; (ii) the outcome is independent of the engine, so no
transcription is attempted; (iii) the encoding message is one of the two
`binascii` shapes; (iv) the outcome differs from every outcome produced
when decoding succeeds and transcription itself fails. -/
theorem base64_invalid_encoding_rejected
    (s m : String) (eng eng2 : EngineOutcome)
    (hdec : pyB64decode s = .error m) :
    transcribe_base64_audio s eng =
      .error ⟨400, "Failed to process base64 audio: " ++ m⟩ ∧
    transcribe_base64_audio s eng = transcribe_base64_audio s eng2 ∧
    (m = "Incorrect padding" ∨ ∃ n, m = b64LenErrMsg n) ∧
    (∀ s2 bs e2, pyB64decode s2 = .ok bs →
      transcribe_audio_file eng2 = .error e2 →
      transcribe_base64_audio s2 eng2 ≠ transcribe_base64_audio s eng) := by
  have h1 : transcribe_base64_audio s eng =
      .error ⟨400, "Failed to process base64 audio: " ++ m⟩ := by
    simp [transcribe_base64_audio, hdec]
  have h2 : transcribe_base64_audio s eng2 =
      .error ⟨400, "Failed to process base64 audio: " ++ m⟩ := by
    simp [transcribe_base64_audio, hdec]
  have hshape := b64Loop_error_shape s.toList [] 0 0 0 0 m
    (by simpa [pyB64decode] using hdec)
  refine ⟨h1, h1.trans h2.symm, hshape, ?_⟩
  intro s2 bs e2 hok herr heq
  have h3 : transcribe_base64_audio s2 eng2 =
      .error ⟨400, "Failed to process base64 audio: " ++ strOfHttpError e2⟩ := by
    simp [transcribe_base64_audio, hok, herr]
  rw [h3, h1] at heq
  have hdetail : "Failed to process base64 audio: " ++ strOfHttpError e2 =
      "Failed to process base64 audio: " ++ m :=
    congrArg HttpError.detail (Except.error.inj heq)
  have hm : strOfHttpError e2 = m := string_append_inj hdetail
  have hmdata := congrArg (fun t => t.data.head?) hm
  have hstatus := transcribe_audio_file_error_status eng2 e2 herr
  have hleft : (strOfHttpError e2).data.head? = some '4' ∨
      (strOfHttpError e2).data.head? = some '5' := by
    rcases hstatus with h4 | h5
    · left
      have : toString e2.status = "400" := by rw [h4]; decide
      simp [strOfHttpError, String.data_append, this]
    · right
      have : toString e2.status = "500" := by rw [h5]; decide
      simp [strOfHttpError, String.data_append, this]
  have hright : m.data.head? = some 'I' := by
    rcases hshape with rfl | ⟨n, rfl⟩
    · rfl
    · simp [b64LenErrMsg, String.data_append]
  simp only at hmdata
  rw [hmdata, hright] at hleft
  rcases hleft with h | h <;> exact absurd (Option.some.inj h) (by decide)

/-- C6 witness: the spec's own end-to-end example, the literal
`invalid base64 text`, decodes to a data-character count error and is
rejected 400 before the engine is consulted. -/
theorem base64_invalid_encoding_rejected_witness :
    transcribe_base64_audio "invalid base64 text" (.ok ⟨"hi", some "pt", []⟩) =
      .error ⟨400, "Failed to process base64 audio: " ++ b64LenErrMsg 17⟩ ∧
    transcribe_base64_audio "invalid base64 text" (.ok ⟨"hi", some "pt", []⟩) =
      transcribe_base64_audio "invalid base64 text"
        (.fileNotFoundError "No such file or directory: ffmpeg") :=
  have h := base64_invalid_encoding_rejected "invalid base64 text"
    (b64LenErrMsg 17) (.ok ⟨"hi", some "pt", []⟩)
    (.fileNotFoundError "No such file or directory: ffmpeg") rfl
  ⟨h.1, h.2.1⟩

/-! ### Claim theorems: Request Orchestrator -/

/-- A successful base64 transcription passes through the engine result. -/
lemma transcribe_base64_ok (b64 : String) (eng : EngineOutcome)
    (r : String × String × Rat) (h : transcribe_base64_audio b64 eng = .ok r) :
    transcribe_audio_file eng = .ok r := by
  unfold transcribe_base64_audio at h
  cases hd : pyB64decode b64 with
  | error m => rw [hd] at h; exact absurd h (by simp)
  | ok bs =>
    rw [hd] at h
    cases ht : transcribe_audio_file eng with
    | error e => rw [ht] at h; exact absurd h (by simp)
    | ok r2 => rw [ht] at h; rw [Except.ok.inj h]

/-- Shape of a successful outcome of the non-file branch. -/
lemma nonFileBranch_ok_shape (key : KeyDoc) (rd : Option TranscriptionRequest)
    (eng : EngineOutcome) (wr : WebhookRun) (resp : SuccessResponse)
    (h : nonFileBranch key rd eng wr = .ok resp) :
    ∃ t l d, transcribe_audio_file eng = .ok (t, l, d) ∧
      resp = buildSuccess key t l d wr := by
  cases rd with
  | none => exact absurd h (by simp [nonFileBranch, noPayloadError])
  | some r =>
    cases hb : r.audio_base64 with
    | none =>
      simp only [nonFileBranch, hb] at h
      exact absurd h (by simp [noPayloadError])
    | some b64 =>
      simp only [nonFileBranch, hb] at h
      by_cases hempty : b64 = ""
      · rw [if_neg (by simp [hempty])] at h
        exact absurd h (by simp [noPayloadError])
      · rw [if_pos hempty] at h
        cases ht : transcribe_base64_audio b64 eng with
        | error e => rw [ht] at h; exact absurd h (by simp)
        | ok trip =>
          obtain ⟨t, l, d⟩ := trip
          rw [ht] at h
          exact ⟨t, l, d, transcribe_base64_ok b64 eng (t, l, d) ht,
            (Except.ok.inj h).symm⟩

/-- Shape of every successful outcome of the orchestrator. -/
lemma transcribe_audio_ok_shape (key : KeyDoc) (audio : Option FileUpload)
    (rd : Option TranscriptionRequest) (eng : EngineOutcome) (wr : WebhookRun)
    (resp : SuccessResponse)
    (h : transcribe_audio key audio rd eng wr = .ok resp) :
    ∃ t l d, transcribe_audio_file eng = .ok (t, l, d) ∧
      resp = buildSuccess key t l d wr := by
  cases audio with
  | none =>
    simp only [transcribe_audio] at h
    exact nonFileBranch_ok_shape key rd eng wr resp h
  | some a =>
    simp only [transcribe_audio] at h
    split at h
    · split at h
      · exact absurd h (by simp)
      · split at h
        · exact absurd h (by simp)
        · split at h
          · exact absurd h (by simp)
          · split at h
            · exact absurd h (by simp)
            · rename_i t l d heq
              exact ⟨t, l, d, heq, (Except.ok.inj h).symm⟩
    · exact nonFileBranch_ok_shape key rd eng wr resp h

/-- C8: every successful terminal response carries the fixed message and
status, the engine's transcription text, language and duration, the
webhook delivery flag of the guarded webhook call, and a
`transcription_id` combining the credential id with the truncated
duration. (The `SuccessResponse` structure fields are exactly the JSON
keys `{message, status, text, language, duration, webhook_delivered,
transcription_id}` of `app/main.py` lines 251-259.) -/
theorem success_response_shape
    (key : KeyDoc) (audio : Option FileUpload) (rd : Option TranscriptionRequest)
    (eng : EngineOutcome) (wr : WebhookRun) (resp : SuccessResponse)
    (h : transcribe_audio key audio rd eng wr = .ok resp) :
    resp.message = "Transcription completed" ∧
    resp.status = "success" ∧
    resp.webhook_delivered = webhookDelivered wr ∧
    resp.transcription_id = "trans_" ++ key.id ++ "_" ++
      toString (if resp.duration ≠ 0 then pyTruncRat resp.duration else 0) ∧
    transcribe_audio_file eng = .ok (resp.text, resp.language, resp.duration) := by
  obtain ⟨t, l, d, ht, rfl⟩ := transcribe_audio_ok_shape key audio rd eng wr resp h
  refine ⟨rfl, rfl, rfl, rfl, ?_⟩
  simpa [buildSuccess] using ht

/-- C8 witness: the spec's end-to-end example — `sample.mp3` with
content-type `audio/mpeg` and the engine returning
`("olá mundo", "pt", 2.5)` — yields the full success response with
`transcription_id = "trans_123_2"`. -/
theorem success_response_shape_witness :
    (⟨"Transcription completed", "success", "olá mundo", "pt", mkRat 5 2,
        true, "trans_123_2"⟩ : SuccessResponse).message =
      "Transcription completed" ∧
    (⟨"Transcription completed", "success", "olá mundo", "pt", mkRat 5 2,
        true, "trans_123_2"⟩ : SuccessResponse).status = "success" ∧
    (⟨"Transcription completed", "success", "olá mundo", "pt", mkRat 5 2,
        true, "trans_123_2"⟩ : SuccessResponse).webhook_delivered =
      webhookDelivered (.returns true) ∧
    (⟨"Transcription completed", "success", "olá mundo", "pt", mkRat 5 2,
        true, "trans_123_2"⟩ : SuccessResponse).transcription_id =
      "trans_" ++ "123" ++ "_" ++
        toString (if (mkRat 5 2 : Rat) ≠ 0 then pyTruncRat (mkRat 5 2) else 0) ∧
    transcribe_audio_file (.ok ⟨" olá mundo ", some "pt", [some (mkRat 5 2)]⟩) =
      .ok ("olá mundo", "pt", mkRat 5 2) :=
  success_response_shape ⟨"123", "k1", "tester", true⟩
    (some ⟨some "sample.mp3", some "audio/mpeg", some 13, 13⟩) none
    (.ok ⟨" olá mundo ", some "pt", [some (mkRat 5 2)]⟩) (.returns true)
    ⟨"Transcription completed", "success", "olá mundo", "pt", mkRat 5 2,
      true, "trans_123_2"⟩ rfl

/-- C10: a multipart request whose file part has an empty or missing
filename is not treated as a file payload: with no usable base64 body it
reaches the no-payload terminal 400, and the outcome is independent of
the declared content-type, the engine and the webhook — neither the type
validator nor transcription influences it. -/
theorem empty_filename_no_payload
    (key : KeyDoc) (a : FileUpload) (rd : Option TranscriptionRequest)
    (eng eng2 : EngineOutcome) (wr wr2 : WebhookRun) (ct2 : Option String)
    (hfn : a.filename = none ∨ a.filename = some "")
    (hrd : rd = none ∨ ∃ r, rd = some r ∧
      (r.audio_base64 = none ∨ r.audio_base64 = some "")) :
    transcribe_audio key (some a) rd eng wr =
      .error ⟨400, "Either audio file or audio_base64 must be provided"⟩ ∧
    transcribe_audio key (some a) rd eng wr =
      transcribe_audio key (some { a with content_type := ct2 }) rd eng2 wr2 := by
  have hft : pyTruthyOpt a.filename = false := by
    rcases hfn with h | h <;> simp [h, pyTruthyOpt]
  have hnfb : ∀ (e : EngineOutcome) (w : WebhookRun),
      nonFileBranch key rd e w =
        .error ⟨400, "Either audio file or audio_base64 must be provided"⟩ := by
    intro e w
    rcases hrd with rfl | ⟨r, rfl, hb⟩
    · rfl
    · rcases hb with hb | hb <;> simp [nonFileBranch, hb, noPayloadError]
  have hgoal : ∀ (e : EngineOutcome) (w : WebhookRun) (ct : Option String),
      transcribe_audio key (some { a with content_type := ct }) rd e w =
        .error ⟨400, "Either audio file or audio_base64 must be provided"⟩ := by
    intro e w ct
    simp only [transcribe_audio, hft, Bool.false_eq_true, if_false]
    exact hnfb e w
  have ha : ({ a with content_type := a.content_type } : FileUpload) = a := rfl
  refine ⟨?_, ?_⟩
  · have := hgoal eng wr a.content_type
    rwa [ha] at this
  · have h1 := hgoal eng wr a.content_type
    rw [ha] at h1
    rw [h1, hgoal eng2 wr2 ct2]

/-- C10 witness: a file part with `filename=""` and no base64 body. -/
theorem empty_filename_no_payload_witness :
    transcribe_audio ⟨"i1", "k1", "n", true⟩
      (some ⟨some "", some "audio/mpeg", some 5, 5⟩) none
      (.ok ⟨"x", some "pt", []⟩) (.returns true) =
      .error ⟨400, "Either audio file or audio_base64 must be provided"⟩ ∧
    transcribe_audio ⟨"i1", "k1", "n", true⟩
      (some ⟨some "", some "audio/mpeg", some 5, 5⟩) none
      (.ok ⟨"x", some "pt", []⟩) (.returns true) =
      transcribe_audio ⟨"i1", "k1", "n", true⟩
        (some ⟨some "", some "application/json", some 5, 5⟩) none
        (.fileNotFoundError "No such file or directory: ffmpeg") .raises :=
  empty_filename_no_payload ⟨"i1", "k1", "n", true⟩
    ⟨some "", some "audio/mpeg", some 5, 5⟩ none
    (.ok ⟨"x", some "pt", []⟩)
    (.fileNotFoundError "No such file or directory: ffmpeg")
    (.returns true) .raises (some "application/json")
    (Or.inr rfl) (Or.inl rfl)

/-! ### Extension handling through the temp-file path (for C9) -/

lemma rfindChar_ge_neg_one (l : List Char) (c : Char) : -1 ≤ rfindChar l c := by
  cases l with
  | nil => simp [rfindChar]
  | cons x xs =>
    simp only [rfindChar]
    split
    · omega
    · split <;> omega

lemma rfindChar_neg_not_mem (l : List Char) (c : Char)
    (h : rfindChar l c < 0) : c ∉ l := by
  induction l with
  | nil => simp
  | cons x xs ih =>
    simp only [rfindChar] at h
    split at h
    · omega
    · split at h
      · omega
      · rename_i hr hx
        simp only [List.mem_cons, not_or]
        exact ⟨fun he => hx he.symm, ih (by omega)⟩

lemma rfindChar_not_mem (l : List Char) (c : Char) (h : c ∉ l) :
    rfindChar l c = -1 := by
  induction l with
  | nil => rfl
  | cons x xs ih =>
    simp only [List.mem_cons, not_or] at h
    simp only [rfindChar, ih h.2]
    have hx : ¬ x = c := fun he => h.1 he.symm
    simp [hx]

lemma rfindChar_lt_length (l : List Char) (c : Char) :
    rfindChar l c < l.length := by
  induction l with
  | nil => simp [rfindChar]
  | cons x xs ih =>
    simp only [rfindChar, List.length_cons]
    split
    · push_cast; omega
    · split <;> (push_cast; omega)

lemma rfindChar_cons (x : Char) (xs : List Char) (c : Char) :
    rfindChar (x :: xs) c =
      if 0 ≤ rfindChar xs c then rfindChar xs c + 1
      else if x = c then 0 else -1 := rfl

lemma rfindChar_append (a b : List Char) (c : Char) :
    rfindChar (a ++ b) c =
      if 0 ≤ rfindChar b c then a.length + rfindChar b c
      else rfindChar a c := by
  induction a with
  | nil =>
    have hge := rfindChar_ge_neg_one b c
    rw [List.nil_append]
    split
    · simp
    · show rfindChar b c = (-1 : Int)
      omega
  | cons x xs ih =>
    rw [List.cons_append, rfindChar_cons, ih]
    by_cases hb : 0 ≤ rfindChar b c
    · rw [if_pos hb, if_pos hb]
      have hx : (0 : Int) ≤ (xs.length : Int) + rfindChar b c := by positivity
      rw [if_pos hx, List.length_cons]
      push_cast
      ring
    · rw [if_neg hb, if_neg hb]
      exact (rfindChar_cons x xs c).symm

lemma rfindChar_drop (l : List Char) (c : Char) (h : 0 ≤ rfindChar l c) :
    ∃ rest, l.drop (rfindChar l c).toNat = c :: rest ∧ c ∉ rest := by
  induction l with
  | nil => simp [rfindChar] at h
  | cons x xs ih =>
    simp only [rfindChar]
    by_cases hr : 0 ≤ rfindChar xs c
    · rw [if_pos hr]
      obtain ⟨rest, hdrop, hmem⟩ := ih hr
      refine ⟨rest, ?_, hmem⟩
      have : (rfindChar xs c + 1).toNat = (rfindChar xs c).toNat + 1 := by omega
      rw [this]
      simpa using hdrop
    · rw [if_neg hr]
      by_cases hx : x = c
      · subst hx
        simp only [if_pos rfl]
        exact ⟨xs, by simp, rfindChar_neg_not_mem xs x (by omega)⟩
      · simp only [rfindChar, if_neg hr, if_neg hx] at h
        omega

lemma not_mem_drop_of_rfindChar_lt (l : List Char) (c : Char) (j : Nat)
    (h : rfindChar l c < (j : Int)) : c ∉ l.drop j := by
  induction l generalizing j with
  | nil => simp
  | cons x xs ih =>
    cases j with
    | zero => exact rfindChar_neg_not_mem _ _ (by exact_mod_cast h)
    | succ j =>
      simp only [List.drop_succ_cons]
      apply ih
      simp only [rfindChar] at h
      split at h
      · push_cast at h ⊢; omega
      · have := rfindChar_ge_neg_one xs c
        rename_i hr
        push_cast at h ⊢
        omega

/-- Shape of a `pyExt` result: empty, or a dot followed by characters
containing neither a dot nor a path separator. -/
lemma pyExt_shape (p : String) :
    pyExt p = "" ∨ ∃ rest : List Char, pyExt p = ⟨'.' :: rest⟩ ∧
      '.' ∉ rest ∧ '/' ∉ rest := by
  unfold pyExt
  by_cases hlt : rfindChar p.toList '/' < rfindChar p.toList '.'
  · rw [if_pos hlt]
    by_cases hall :
        ((p.toList.drop (rfindChar p.toList '/' + 1).toNat).take
          ((rfindChar p.toList '.').toNat -
            (rfindChar p.toList '/' + 1).toNat)).all (· = '.') = true
    · left; rw [if_pos hall]
    · right
      rw [if_neg hall]
      have hdot0 : 0 ≤ rfindChar p.toList '.' := by
        have := rfindChar_ge_neg_one p.toList '/'
        omega
      obtain ⟨rest, hdrop, hnotin⟩ := rfindChar_drop p.toList '.' hdot0
      refine ⟨rest, by rw [hdrop], hnotin, ?_⟩
      have hs : '/' ∉ p.toList.drop (rfindChar p.toList '.').toNat := by
        apply not_mem_drop_of_rfindChar_lt
        omega
      rw [hdrop] at hs
      simp only [List.mem_cons, not_or] at hs
      exact hs.2
  · rw [if_neg hlt]
    left
    rfl

/-- The temp file keeps exactly the upload's original extension: the temp
basename holds no dots, so `os.path.splitext` recovers the suffix. -/
lemma pyExt_tempPath (fn : String) : pyExt (tempPath fn) = pyExt fn := by
  rcases pyExt_shape fn with h | ⟨rest, h, hdot, hslash⟩
  · rw [tempPath, h]
    decide
  · rw [tempPath, h]
    have hdata : ("/tmp/tmpupload0" ++ (⟨'.' :: rest⟩ : String)).toList =
        "/tmp/tmpupload0".toList ++ ('.' :: rest) := by
      show ("/tmp/tmpupload0" ++ (⟨'.' :: rest⟩ : String)).data =
        "/tmp/tmpupload0".data ++ ('.' :: rest)
      rw [String.data_append]
    have hrsufdot : rfindChar ('.' :: rest) '.' = 0 := by
      rw [rfindChar_cons, rfindChar_not_mem rest '.' hdot]
      norm_num
    have hrsufslash : rfindChar ('.' :: rest) '/' = -1 := by
      rw [rfindChar_cons, rfindChar_not_mem rest '/' hslash]
      norm_num
      decide
    have hlen : ("/tmp/tmpupload0".toList).length = 15 := rfl
    have hrdot : rfindChar ("/tmp/tmpupload0".toList ++ ('.' :: rest)) '.' = 15 := by
      rw [rfindChar_append, hrsufdot, if_pos (by omega), hlen]
      norm_num
    have hrslash : rfindChar ("/tmp/tmpupload0".toList ++ ('.' :: rest)) '/' = 4 := by
      rw [rfindChar_append, hrsufslash, if_neg (by omega)]
      decide
    have hdrop5 : ("/tmp/tmpupload0".toList ++ ('.' :: rest)).drop 5 =
        "tmpupload0".toList ++ ('.' :: rest) := by
      rw [List.drop_append_of_le_length (by rw [hlen]; omega)]
      rfl
    have htake : (("tmpupload0".toList ++ ('.' :: rest)).take 10) =
        "tmpupload0".toList := by
      have h10 : ("tmpupload0".toList).length = 10 := rfl
      rw [← h10, List.take_left]
    have hlead : ((("/tmp/tmpupload0".toList ++ ('.' :: rest)).drop
        ((4 : Int) + 1).toNat).take
          (((15 : Int)).toNat - ((4 : Int) + 1).toNat)).all (· = '.') = false := by
      show ((("/tmp/tmpupload0".toList ++ ('.' :: rest)).drop 5).take 10).all
        (· = '.') = false
      rw [hdrop5, htake]
      decide
    have hdrop15 : ("/tmp/tmpupload0".toList ++ ('.' :: rest)).drop
        ((15 : Int)).toNat = '.' :: rest := by
      show ("/tmp/tmpupload0".toList ++ ('.' :: rest)).drop 15 = '.' :: rest
      rw [← hlen, List.drop_left]
    unfold pyExt
    rw [hdata, hrdot, hrslash, if_pos (by omega), hdrop15,
      if_neg (by rw [hlead]; simp)]

/-- C9 (counterexample): an upload accepted by the type validator whose
saved content exceeds the maximum size is rejected with the earlier
`File too large` detail when its reported size is accurate — not with
`Invalid audio file format or size`, and without the second file check
running. -/
theorem oversize_file_detail_cex :
    transcribe_audio ⟨"i1", "k1", "n", true⟩
      (some ⟨some "a.mp3", some "audio/mpeg", some 26214401, 26214401⟩) none
      (.ok ⟨"t", some "pt", []⟩) (.returns true) =
      .error ⟨400, "File too large. Maximum size: 26214400 bytes"⟩ ∧
    ¬ transcribe_audio ⟨"i1", "k1", "n", true⟩
      (some ⟨some "a.mp3", some "audio/mpeg", some 26214401, 26214401⟩) none
      (.ok ⟨"t", some "pt", []⟩) (.returns true) =
      .error ⟨400, "Invalid audio file format or size"⟩ := by
  constructor
  · rfl
  · decide

/-- C9 (amended): once the type validator has accepted and the
reported-size guard (`audio.size`) has passed, a second independent check
runs before transcription: if the filename's lowercased extension is not
among the six allowed ones, or the saved content exceeds the maximum
size, the request is rejected 400 with detail
`Invalid audio file format or size` and the engine is never consulted.
(An upload whose reported `size` already exceeds the limit is instead
rejected earlier with the `File too large` detail.) -/
theorem secondary_file_check_amended
    (key : KeyDoc) (a : FileUpload) (rd : Option TranscriptionRequest)
    (eng eng2 : EngineOutcome) (wr wr2 : WebhookRun)
    (hfn : pyTruthyOpt a.filename = true)
    (htype : validate_audio_type a.content_type a.filename = true)
    (hrep : reportedTooLarge a.size = false)
    (hbad : ([".mp3", ".wav", ".m4a", ".mp4", ".ogg", ".flac"] : List String).contains
        (pyLower (pyExt (a.filename.getD ""))) = false ∨
      MAX_FILE_SIZE < a.contentSize) :
    transcribe_audio key (some a) rd eng wr =
      .error ⟨400, "Invalid audio file format or size"⟩ ∧
    transcribe_audio key (some a) rd eng wr =
      transcribe_audio key (some a) rd eng2 wr2 := by
  have hval : validate_audio_file true a.contentSize
      (tempPath (a.filename.getD "")) = false := by
    unfold validate_audio_file
    rw [pyExt_tempPath]
    rcases hbad with hb | hb
    · split_ifs <;> simp_all
    · split_ifs <;> simp_all
  have hmain : ∀ (e : EngineOutcome) (w : WebhookRun),
      transcribe_audio key (some a) rd e w =
        .error ⟨400, "Invalid audio file format or size"⟩ := by
    intro e w
    simp [transcribe_audio, hfn, htype, hrep, hval]
  exact ⟨hmain eng wr, (hmain eng wr).trans (hmain eng2 wr2).symm⟩

/-- C9 witness: `a.aac` declared as `audio/mpeg` passes the type
validator via the content-type but fails the second file check on its
extension, independently of the engine. -/
theorem secondary_file_check_amended_witness :
    transcribe_audio ⟨"i1", "k1", "n", true⟩
      (some ⟨some "a.aac", some "audio/mpeg", some 10, 10⟩) none
      (.ok ⟨"t", some "pt", []⟩) (.returns true) =
      .error ⟨400, "Invalid audio file format or size"⟩ ∧
    transcribe_audio ⟨"i1", "k1", "n", true⟩
      (some ⟨some "a.aac", some "audio/mpeg", some 10, 10⟩) none
      (.ok ⟨"t", some "pt", []⟩) (.returns true) =
      transcribe_audio ⟨"i1", "k1", "n", true⟩
        (some ⟨some "a.aac", some "audio/mpeg", some 10, 10⟩) none
        (.fileNotFoundError "No such file or directory: ffmpeg") .raises :=
  secondary_file_check_amended ⟨"i1", "k1", "n", true⟩
    ⟨some "a.aac", some "audio/mpeg", some 10, 10⟩ none
    (.ok ⟨"t", some "pt", []⟩)
    (.fileNotFoundError "No such file or directory: ffmpeg")
    (.returns true) .raises
    (by decide) (by decide) (by decide) (Or.inl (by decide))

end Capibot
